import Mathlib

/-!
# Scene-graph node (`Object`) of `DNA_object_types.h`

A shallow embedding of `source/blender/makesdna/DNA_object_types.h`: the `ObjectType`
enumeration, the object-type predicates, the `partype` binding modes, the `protectflag`
lock bits, the declared limits of the game-engine bit masks, the records
`Object_Runtime` and `BoundBox`, and the declaration order of the members of
`struct Object`.

The header declares data only. The operations that work on these records (evaluation of
the cached payload, the lazy bounding box, the composition of the world matrix) live in
other modules; they are embedded from their written contract, and each such definition
says so in its comment.

Enumeration constants are C `int`s and are embedded as `Int`; bit masks that are only
ever non-negative are embedded as `Nat`; matrix entries are rationals.
-/

namespace DNAObject

/-! ## `ObjectType` (`#Object.type`) -/

def OB_EMPTY : Int := 0
def OB_MESH : Int := 1
def OB_CURVES_LEGACY : Int := 2
def OB_SURF : Int := 3
def OB_FONT : Int := 4
def OB_MBALL : Int := 5
def OB_LAMP : Int := 10
def OB_CAMERA : Int := 11
def OB_SPEAKER : Int := 12
def OB_LIGHTPROBE : Int := 13
def OB_LATTICE : Int := 22
def OB_ARMATURE : Int := 25
def OB_GPENCIL_LEGACY : Int := 26
def OB_CURVES : Int := 27
def OB_POINTCLOUD : Int := 28
def OB_VOLUME : Int := 29
/-- The enumerator `OB_TYPE_MAX` carries no initialiser, so C gives it the value of the
enumerator declared right before it (`OB_VOLUME`) plus one. -/
def OB_TYPE_MAX : Int := OB_VOLUME + 1

/-- The sixteen object kinds of `enum ObjectType`, in declaration order (the sentinel
`OB_TYPE_MAX` is not a kind). -/
def ObjectType_tags : List Int :=
  [OB_EMPTY, OB_MESH, OB_CURVES_LEGACY, OB_SURF, OB_FONT, OB_MBALL, OB_LAMP, OB_CAMERA,
   OB_SPEAKER, OB_LIGHTPROBE, OB_LATTICE, OB_ARMATURE, OB_GPENCIL_LEGACY, OB_CURVES,
   OB_POINTCLOUD, OB_VOLUME]

/-- Range of the field `short type` of `struct Object`: a 16-bit signed integer. -/
def short_fits (v : Int) : Bool := decide (-(2 : Int) ^ 15 ≤ v) && decide (v < (2 : Int) ^ 15)

/-! ## Object-type predicates -/

/-- Modelled from the spec: the variadic macro `ELEM` comes from `BLI_utildefines.h`, which
is not part of this header; `ELEM(v, a, b, ...)` stands for `v == a || v == b || ...`. -/
def ELEM (v : Int) (xs : List Int) : Bool := xs.any (fun a => v == a)

def OB_TYPE_SUPPORT_MATERIAL (_type : Int) : Bool :=
  (decide (_type ≥ OB_MESH) && decide (_type ≤ OB_MBALL)) ||
  (decide (_type ≥ OB_GPENCIL_LEGACY) && decide (_type ≤ OB_VOLUME))

def OB_TYPE_IS_GEOMETRY (_type : Int) : Bool :=
  ELEM _type
    [OB_MESH, OB_SURF, OB_FONT, OB_MBALL, OB_GPENCIL_LEGACY, OB_CURVES_LEGACY, OB_CURVES,
     OB_POINTCLOUD, OB_VOLUME]

def OB_TYPE_SUPPORT_VGROUP (_type : Int) : Bool :=
  ELEM _type [OB_MESH, OB_LATTICE, OB_GPENCIL_LEGACY]

def OB_TYPE_SUPPORT_EDITMODE (_type : Int) : Bool :=
  ELEM _type
    [OB_MESH, OB_FONT, OB_CURVES_LEGACY, OB_SURF, OB_MBALL, OB_LATTICE, OB_ARMATURE,
     OB_CURVES]

def OB_TYPE_SUPPORT_PARVERT (_type : Int) : Bool :=
  ELEM _type [OB_MESH, OB_SURF, OB_CURVES_LEGACY, OB_LATTICE]

/-- The `ID_Type` codes that the object-data macros mention. They are declared in
`DNA_ID_enums.h`, which is not part of this header, so they are a parameter of the
embedding. -/
structure ID_Type_codes where
  ID_ME : Int
  ID_CU_LEGACY : Int
  ID_MB : Int
  ID_LA : Int
  ID_SPK : Int
  ID_LP : Int
  ID_CA : Int
  ID_LT : Int
  ID_GD_LEGACY : Int
  ID_AR : Int
  ID_CV : Int
  ID_PT : Int
  ID_VO : Int

/-- All thirteen codes, in the order of `OB_DATA_SUPPORT_ID`. -/
def ID_Type_codes.all (c : ID_Type_codes) : List Int :=
  [c.ID_ME, c.ID_CU_LEGACY, c.ID_MB, c.ID_LA, c.ID_SPK, c.ID_LP, c.ID_CA, c.ID_LT,
   c.ID_GD_LEGACY, c.ID_AR, c.ID_CV, c.ID_PT, c.ID_VO]

/-- Matches `OB_TYPE_SUPPORT_EDITMODE`. -/
def OB_DATA_SUPPORT_EDITMODE (c : ID_Type_codes) (_type : Int) : Bool :=
  ELEM _type [c.ID_ME, c.ID_CU_LEGACY, c.ID_MB, c.ID_LT, c.ID_AR, c.ID_CV]

/-- Is this ID type used as object data. -/
def OB_DATA_SUPPORT_ID (c : ID_Type_codes) (_id_type : Int) : Bool :=
  ELEM _id_type c.all

/-- Two-character ID code on a little-endian machine: `(d) << 8 | (c)`. -/
def MAKE_ID2 (c d : Char) : Int := Int.ofNat ((d.toNat <<< 8) ||| c.toNat)

/-- The codes with the two-letter values Blender gives them. -/
def blender_ID_codes : ID_Type_codes where
  ID_ME := MAKE_ID2 'M' 'E'
  ID_CU_LEGACY := MAKE_ID2 'C' 'U'
  ID_MB := MAKE_ID2 'M' 'B'
  ID_LA := MAKE_ID2 'L' 'A'
  ID_SPK := MAKE_ID2 'S' 'K'
  ID_LP := MAKE_ID2 'L' 'P'
  ID_CA := MAKE_ID2 'C' 'A'
  ID_LT := MAKE_ID2 'L' 'T'
  ID_GD_LEGACY := MAKE_ID2 'G' 'D'
  ID_AR := MAKE_ID2 'A' 'R'
  ID_CV := MAKE_ID2 'C' 'V'
  ID_PT := MAKE_ID2 'P' 'T'
  ID_VO := MAKE_ID2 'V' 'O'

/-- Modelled from the spec: the object-type to data-ID-type correspondence is kept in the
object kernel module, not in this header; the table pairs every object kind with the ID
type of the data it points to. An empty, and any value that is not an object kind, has no
data ID type. -/
def obdata_id_type (c : ID_Type_codes) (_type : Int) : Option Int :=
  if _type = OB_MESH then some c.ID_ME
  else if _type = OB_CURVES_LEGACY ∨ _type = OB_SURF ∨ _type = OB_FONT then some c.ID_CU_LEGACY
  else if _type = OB_MBALL then some c.ID_MB
  else if _type = OB_LAMP then some c.ID_LA
  else if _type = OB_SPEAKER then some c.ID_SPK
  else if _type = OB_LIGHTPROBE then some c.ID_LP
  else if _type = OB_CAMERA then some c.ID_CA
  else if _type = OB_LATTICE then some c.ID_LT
  else if _type = OB_GPENCIL_LEGACY then some c.ID_GD_LEGACY
  else if _type = OB_ARMATURE then some c.ID_AR
  else if _type = OB_CURVES then some c.ID_CV
  else if _type = OB_POINTCLOUD then some c.ID_PT
  else if _type = OB_VOLUME then some c.ID_VO
  else none

/-! ## `#Object.partype`: first 4 bits: type -/

def PARTYPE : Int := (1 <<< 4) - 1
def PAROBJECT : Int := 0
def PARSKEL : Int := 4
def PARVERT1 : Int := 5
def PARVERT3 : Int := 6
def PARBONE : Int := 7
/-- Slow parenting. -/
def PARSLOW : Int := 16

/-- The five binding modes. -/
def partype_modes : List Int := [PAROBJECT, PARSKEL, PARVERT1, PARVERT3, PARBONE]

/-- Binding mode of a `partype` value: `partype & PARTYPE`. -/
def partype_mode (partype : Int) : Int := Int.land partype PARTYPE

/-- Turn slow parenting on: `partype | PARSLOW`. -/
def partype_set_slow (partype : Int) : Int := Int.lor partype PARSLOW

/-- Turn slow parenting off: `partype & ~PARSLOW`. -/
def partype_clear_slow (partype : Int) : Int := Int.land partype (Int.lnot PARSLOW)

/-! ## `#Object.protectflag` -/

def OB_LOCK_LOCX : Nat := 1 <<< 0
def OB_LOCK_LOCY : Nat := 1 <<< 1
def OB_LOCK_LOCZ : Nat := 1 <<< 2
def OB_LOCK_LOC : Nat := OB_LOCK_LOCX ||| OB_LOCK_LOCY ||| OB_LOCK_LOCZ
def OB_LOCK_ROTX : Nat := 1 <<< 3
def OB_LOCK_ROTY : Nat := 1 <<< 4
def OB_LOCK_ROTZ : Nat := 1 <<< 5
def OB_LOCK_ROT : Nat := OB_LOCK_ROTX ||| OB_LOCK_ROTY ||| OB_LOCK_ROTZ
def OB_LOCK_SCALEX : Nat := 1 <<< 6
def OB_LOCK_SCALEY : Nat := 1 <<< 7
def OB_LOCK_SCALEZ : Nat := 1 <<< 8
def OB_LOCK_SCALE : Nat := OB_LOCK_SCALEX ||| OB_LOCK_SCALEY ||| OB_LOCK_SCALEZ
def OB_LOCK_ROTW : Nat := 1 <<< 9
def OB_LOCK_ROT4D : Nat := 1 <<< 10

/-- The eleven single-axis lock constants, in declaration order. -/
def OB_LOCK_bits : List Nat :=
  [OB_LOCK_LOCX, OB_LOCK_LOCY, OB_LOCK_LOCZ, OB_LOCK_ROTX, OB_LOCK_ROTY, OB_LOCK_ROTZ,
   OB_LOCK_SCALEX, OB_LOCK_SCALEY, OB_LOCK_SCALEZ, OB_LOCK_ROTW, OB_LOCK_ROT4D]

/-- Modelled from the spec: the design notes replace the packed transform-lock flags by a
record of named booleans, one per lock constant of `protectflag`. -/
structure TransformLocks where
  loc_x : Bool
  loc_y : Bool
  loc_z : Bool
  rot_x : Bool
  rot_y : Bool
  rot_z : Bool
  scale_x : Bool
  scale_y : Bool
  scale_z : Bool
  rot_w : Bool
  rot_4d : Bool
deriving DecidableEq

/-- Read each lock of a `protectflag` value with the C test `(flag & BIT) != 0`. -/
def protectflag_decode (f : Nat) : TransformLocks where
  loc_x := (f &&& OB_LOCK_LOCX) != 0
  loc_y := (f &&& OB_LOCK_LOCY) != 0
  loc_z := (f &&& OB_LOCK_LOCZ) != 0
  rot_x := (f &&& OB_LOCK_ROTX) != 0
  rot_y := (f &&& OB_LOCK_ROTY) != 0
  rot_z := (f &&& OB_LOCK_ROTZ) != 0
  scale_x := (f &&& OB_LOCK_SCALEX) != 0
  scale_y := (f &&& OB_LOCK_SCALEY) != 0
  scale_z := (f &&& OB_LOCK_SCALEZ) != 0
  rot_w := (f &&& OB_LOCK_ROTW) != 0
  rot_4d := (f &&& OB_LOCK_ROT4D) != 0

/-- The bit `m` when the lock `b` is set, no bit otherwise. -/
def lock_bit (b : Bool) (m : Nat) : Nat := if b then m else 0

/-- Pack the record with the C idiom `flag |= BIT` for every lock that is set. -/
def protectflag_encode (r : TransformLocks) : Nat :=
  lock_bit r.loc_x OB_LOCK_LOCX ||| lock_bit r.loc_y OB_LOCK_LOCY |||
  lock_bit r.loc_z OB_LOCK_LOCZ ||| lock_bit r.rot_x OB_LOCK_ROTX |||
  lock_bit r.rot_y OB_LOCK_ROTY ||| lock_bit r.rot_z OB_LOCK_ROTZ |||
  lock_bit r.scale_x OB_LOCK_SCALEX ||| lock_bit r.scale_y OB_LOCK_SCALEY |||
  lock_bit r.scale_z OB_LOCK_SCALEZ ||| lock_bit r.rot_w OB_LOCK_ROTW |||
  lock_bit r.rot_4d OB_LOCK_ROT4D

/-- What the lock bitfield has to satisfy at one value `f`: the record round-trips, and
each three-axis mask is fully set exactly when its three axis locks are. -/
def protectflag_record_ok (f : Nat) : Bool :=
  decide (protectflag_encode (protectflag_decode f) = f) &&
  (decide (f &&& OB_LOCK_LOC = OB_LOCK_LOC) ==
    ((protectflag_decode f).loc_x && (protectflag_decode f).loc_y &&
      (protectflag_decode f).loc_z)) &&
  (decide (f &&& OB_LOCK_ROT = OB_LOCK_ROT) ==
    ((protectflag_decode f).rot_x && (protectflag_decode f).rot_y &&
      (protectflag_decode f).rot_z)) &&
  (decide (f &&& OB_LOCK_SCALE = OB_LOCK_SCALE) ==
    ((protectflag_decode f).scale_x && (protectflag_decode f).scale_y &&
      (protectflag_decode f).scale_z))

/-- Exhaustive check of `P` on the `2 ^ k` values from `lo` on, by halving the range. -/
def allBelowPow2 (P : Nat → Bool) : Nat → Nat → Bool
  | 0, lo => P lo
  | k + 1, lo => allBelowPow2 P k lo && allBelowPow2 P k (lo + 2 ^ k)

/-! ## Declared limits -/

/-- Controller state. -/
def OB_MAX_STATES : Nat := 30
/-- Collision masks. -/
def OB_MAX_COL_MASKS : Nat := 16

/-- Width in bits of `unsigned short col_group, col_mask`. -/
def col_mask_bits : Nat := 16
/-- Width in bits of `unsigned int state` and `unsigned int init_state`. -/
def state_bits : Nat := 32

/-- The bit `1 << i` of a mask. -/
def mask_bit (i : Nat) : Nat := 1 <<< i

/-- All controller states set: `(1 << OB_MAX_STATES) - 1`. -/
def all_states_mask : Nat := (1 <<< OB_MAX_STATES) - 1

/-! ## Evaluated-state cache (`Object_Runtime`) -/

/-- The fields of `struct Object_Runtime` that track the evaluated data. A pointer is its
address, `NULL` is `none`. The layer mask `CustomData_MeshMasks` is declared in
`DNA_customdata_types.h`, which is not part of this header; it is held as a bit set. -/
structure Object_Runtime where
  /-- The custom data layer mask that was last used to calculate `data_eval`. -/
  last_data_mask : Nat
  /-- Denotes whether the evaluated data is owned by this object or is referenced and
  owned by somebody else. -/
  is_data_eval_owned : Bool
  /-- Original data pointer. -/
  data_orig : Nat
  /-- Object data structure created during object evaluation. -/
  data_eval : Option Nat
deriving DecidableEq

/-- Modelled from the spec: a node of the evaluated-state cache is the runtime record
together with the revision counter of the authored data and the revision the cached
payload was built from (the spec memoizes on "revision counter unchanged"). -/
structure EvalNode where
  runtime : Object_Runtime
  revision : Nat
  eval_revision : Nat
deriving DecidableEq

/-- Modelled from the spec: what `evaluate` hands back, either the payload (named by its
evaluated-data reference) or the error of the generation collaborator. -/
inductive EvalResult where
  | payload (data_eval : Nat)
  | GeometryGenerationError
deriving DecidableEq

/-- Modelled from the spec: the node after a call of `evaluate`, the result, the
evaluated-data instances the call released, and whether it rebuilt the payload. -/
structure EvalOutcome where
  node : EvalNode
  result : EvalResult
  released : List Nat
  rebuilt : Bool
deriving DecidableEq

/-- Modelled from the spec: "an existing payload's mask is a superset of
`requested_mask`". -/
def mask_superset (cached requested : Nat) : Bool := requested &&& cached == requested

/-- Modelled from the spec: the rebuild branch of `evaluate`. The collaborator
`generate(original_data, mask)` is invoked with the requested mask. When it fails the
previous payload is retained and the error is surfaced. Otherwise the payload reference
is swapped, the previous evaluated-data instance is released only if the node owned it,
and ownership is taken unless the data handed back is the original data itself (no
modifier produced new data), in which case the node borrows. -/
def rebuild (generate : Nat → Nat → Option Nat) (n : EvalNode) (requested_mask : Nat) :
    EvalOutcome :=
  match generate n.runtime.data_orig requested_mask with
  | none =>
    { node := n, result := EvalResult.GeometryGenerationError, released := [],
      rebuilt := false }
  | some d =>
    { node :=
        { runtime :=
            { last_data_mask := requested_mask
              is_data_eval_owned := d != n.runtime.data_orig
              data_orig := n.runtime.data_orig
              data_eval := some d }
          revision := n.revision
          eval_revision := n.revision }
      result := EvalResult.payload d
      released := if n.runtime.is_data_eval_owned then n.runtime.data_eval.toList else []
      rebuilt := true }

/-- Modelled from the spec: `evaluate(node, requested_mask)`. If an existing payload's mask
is a superset of the requested mask and the authored data's revision counter is
unchanged, the cached payload is returned unchanged; otherwise the payload is rebuilt. -/
def evaluate (generate : Nat → Nat → Option Nat) (n : EvalNode) (requested_mask : Nat) :
    EvalOutcome :=
  match n.runtime.data_eval with
  | some d =>
    if mask_superset n.runtime.last_data_mask requested_mask && n.eval_revision == n.revision
    then { node := n, result := EvalResult.payload d, released := [], rebuilt := false }
    else rebuild generate n requested_mask
  | none => rebuild generate n requested_mask

/-- A node that has not been evaluated yet: no evaluated data, nothing owned. -/
def EvalNode.fresh (data_orig : Nat) : EvalNode where
  runtime :=
    { last_data_mask := 0, is_data_eval_owned := false, data_orig := data_orig,
      data_eval := none }
  revision := 0
  eval_revision := 0

/-- Modelled from the spec: what happens to a node between two looks at it, an evaluation
with some requested mask or an edit of the authored data (its revision counter moves
on). -/
inductive CacheOp where
  | request (requested_mask : Nat)
  | author_edit
deriving DecidableEq

/-- One operation on the node; the second component collects every released instance. -/
def CacheOp.apply (generate : Nat → Nat → Option Nat) (st : EvalNode × List Nat) :
    CacheOp → EvalNode × List Nat
  | CacheOp.request m =>
    ((evaluate generate st.1 m).node, st.2 ++ (evaluate generate st.1 m).released)
  | CacheOp.author_edit => ({ st.1 with revision := st.1.revision + 1 }, st.2)

/-- Any number of evaluate / edit cycles, from left to right. -/
def run_cycles (generate : Nat → Nat → Option Nat) (n : EvalNode) (ops : List CacheOp) :
    EvalNode × List Nat :=
  ops.foldl (CacheOp.apply generate) (n, [])

/-- The node does not claim ownership of the authored original. -/
def owner_ok (n : EvalNode) : Bool :=
  !(n.runtime.is_data_eval_owned && n.runtime.data_eval == some n.runtime.data_orig)

/-! ## Bounding volume cache (`BoundBox`) -/

/-- A 4x4 matrix with rational entries, `mRC` being row `R`, column `C`; vectors are
columns, so the translation of a transform is its last column. -/
structure Mat4 where
  m00 : ℚ
  m01 : ℚ
  m02 : ℚ
  m03 : ℚ
  m10 : ℚ
  m11 : ℚ
  m12 : ℚ
  m13 : ℚ
  m20 : ℚ
  m21 : ℚ
  m22 : ℚ
  m23 : ℚ
  m30 : ℚ
  m31 : ℚ
  m32 : ℚ
  m33 : ℚ
deriving DecidableEq

structure Vec3 where
  x : ℚ
  y : ℚ
  z : ℚ
deriving DecidableEq

def Mat4.identity : Mat4 where
  m00 := 1
  m01 := 0
  m02 := 0
  m03 := 0
  m10 := 0
  m11 := 1
  m12 := 0
  m13 := 0
  m20 := 0
  m21 := 0
  m22 := 1
  m23 := 0
  m30 := 0
  m31 := 0
  m32 := 0
  m33 := 1

/-- Translation by `t`. -/
def Mat4.translation (t : Vec3) : Mat4 :=
  { Mat4.identity with m03 := t.x, m13 := t.y, m23 := t.z }

/-- Scaling by `s` along the axes. -/
def Mat4.scaling (s : Vec3) : Mat4 :=
  { Mat4.identity with m00 := s.x, m11 := s.y, m22 := s.z }

/-- The translation column of a transform. -/
def Mat4.translation_column (A : Mat4) : Vec3 := { x := A.m03, y := A.m13, z := A.m23 }

/-- Matrix product `A · B`. -/
def Mat4.mul (A B : Mat4) : Mat4 where
  m00 := A.m00 * B.m00 + A.m01 * B.m10 + A.m02 * B.m20 + A.m03 * B.m30
  m01 := A.m00 * B.m01 + A.m01 * B.m11 + A.m02 * B.m21 + A.m03 * B.m31
  m02 := A.m00 * B.m02 + A.m01 * B.m12 + A.m02 * B.m22 + A.m03 * B.m32
  m03 := A.m00 * B.m03 + A.m01 * B.m13 + A.m02 * B.m23 + A.m03 * B.m33
  m10 := A.m10 * B.m00 + A.m11 * B.m10 + A.m12 * B.m20 + A.m13 * B.m30
  m11 := A.m10 * B.m01 + A.m11 * B.m11 + A.m12 * B.m21 + A.m13 * B.m31
  m12 := A.m10 * B.m02 + A.m11 * B.m12 + A.m12 * B.m22 + A.m13 * B.m32
  m13 := A.m10 * B.m03 + A.m11 * B.m13 + A.m12 * B.m23 + A.m13 * B.m33
  m20 := A.m20 * B.m00 + A.m21 * B.m10 + A.m22 * B.m20 + A.m23 * B.m30
  m21 := A.m20 * B.m01 + A.m21 * B.m11 + A.m22 * B.m21 + A.m23 * B.m31
  m22 := A.m20 * B.m02 + A.m21 * B.m12 + A.m22 * B.m22 + A.m23 * B.m32
  m23 := A.m20 * B.m03 + A.m21 * B.m13 + A.m22 * B.m23 + A.m23 * B.m33
  m30 := A.m30 * B.m00 + A.m31 * B.m10 + A.m32 * B.m20 + A.m33 * B.m30
  m31 := A.m30 * B.m01 + A.m31 * B.m11 + A.m32 * B.m21 + A.m33 * B.m31
  m32 := A.m30 * B.m02 + A.m31 * B.m12 + A.m32 * B.m22 + A.m33 * B.m32
  m33 := A.m30 * B.m03 + A.m31 * B.m13 + A.m32 * B.m23 + A.m33 * B.m33

/-- Determinant of the 3x3 matrix with rows `a b c`, `d e f`, `g h i`. -/
def det3 (a b c d e f g h i : ℚ) : ℚ :=
  a * (e * i - f * h) - b * (d * i - f * g) + c * (d * h - e * g)

/-- Cofactor matrix: entry `(r, c)` is the signed 3x3 minor that omits row `r` and column `c`. -/
def Mat4.cofactor (A : Mat4) : Mat4 where
  m00 := det3 A.m11 A.m12 A.m13 A.m21 A.m22 A.m23 A.m31 A.m32 A.m33
  m01 := -det3 A.m10 A.m12 A.m13 A.m20 A.m22 A.m23 A.m30 A.m32 A.m33
  m02 := det3 A.m10 A.m11 A.m13 A.m20 A.m21 A.m23 A.m30 A.m31 A.m33
  m03 := -det3 A.m10 A.m11 A.m12 A.m20 A.m21 A.m22 A.m30 A.m31 A.m32
  m10 := -det3 A.m01 A.m02 A.m03 A.m21 A.m22 A.m23 A.m31 A.m32 A.m33
  m11 := det3 A.m00 A.m02 A.m03 A.m20 A.m22 A.m23 A.m30 A.m32 A.m33
  m12 := -det3 A.m00 A.m01 A.m03 A.m20 A.m21 A.m23 A.m30 A.m31 A.m33
  m13 := det3 A.m00 A.m01 A.m02 A.m20 A.m21 A.m22 A.m30 A.m31 A.m32
  m20 := det3 A.m01 A.m02 A.m03 A.m11 A.m12 A.m13 A.m31 A.m32 A.m33
  m21 := -det3 A.m00 A.m02 A.m03 A.m10 A.m12 A.m13 A.m30 A.m32 A.m33
  m22 := det3 A.m00 A.m01 A.m03 A.m10 A.m11 A.m13 A.m30 A.m31 A.m33
  m23 := -det3 A.m00 A.m01 A.m02 A.m10 A.m11 A.m12 A.m30 A.m31 A.m32
  m30 := -det3 A.m01 A.m02 A.m03 A.m11 A.m12 A.m13 A.m21 A.m22 A.m23
  m31 := det3 A.m00 A.m02 A.m03 A.m10 A.m12 A.m13 A.m20 A.m22 A.m23
  m32 := -det3 A.m00 A.m01 A.m03 A.m10 A.m11 A.m13 A.m20 A.m21 A.m23
  m33 := det3 A.m00 A.m01 A.m02 A.m10 A.m11 A.m12 A.m20 A.m21 A.m22

/-- Determinant, expanded along the first row. -/
def Mat4.det (A : Mat4) : ℚ :=
  A.m00 * A.cofactor.m00 + A.m01 * A.cofactor.m01 + A.m02 * A.cofactor.m02 +
    A.m03 * A.cofactor.m03

/-- The transpose of `A` with every entry divided by `d`. -/
def Mat4.transpose_div (A : Mat4) (d : ℚ) : Mat4 where
  m00 := A.m00 / d
  m01 := A.m10 / d
  m02 := A.m20 / d
  m03 := A.m30 / d
  m10 := A.m01 / d
  m11 := A.m11 / d
  m12 := A.m21 / d
  m13 := A.m31 / d
  m20 := A.m02 / d
  m21 := A.m12 / d
  m22 := A.m22 / d
  m23 := A.m32 / d
  m30 := A.m03 / d
  m31 := A.m13 / d
  m32 := A.m23 / d
  m33 := A.m33 / d

/-- Inverse of a matrix: the transposed cofactor matrix over the determinant; a singular
matrix has none. -/
def Mat4.inverse (A : Mat4) : Option Mat4 :=
  if A.det = 0 then none else some (A.cofactor.transpose_div A.det)

/-- Modelled from the spec: the local transform channels. Location, scale and their delta
variants are stored as they are; the rotation of the active representation, composed with
its delta, enters as the rotation matrix it denotes. -/
structure TransformChannels where
  loc : Vec3
  dloc : Vec3
  scale : Vec3
  dscale : Vec3
  rotation : Mat4
deriving DecidableEq

/-- Modelled from the spec: `compose_local_matrix(channels)`, the fixed order `T · R · S`
with `loc_total = loc + dloc` and `scale_total = scale * dscale`. -/
def compose_local_matrix (c : TransformChannels) : Mat4 :=
  ((Mat4.translation
      { x := c.loc.x + c.dloc.x, y := c.loc.y + c.dloc.y, z := c.loc.z + c.dloc.z }).mul
    c.rotation).mul
    (Mat4.scaling
      { x := c.scale.x * c.dscale.x, y := c.scale.y * c.dscale.y,
        z := c.scale.z * c.dscale.z })

/-- Modelled from the spec: the binding modes of a parent relation. -/
inductive BindingMode where
  | NONE
  | OBJECT
  | VERTEX
  | VERTEX_TRIPLE
  | BONE
deriving DecidableEq

/-- Modelled from the spec: `resolve_binding(mode, parent_node, indices)`. `NONE` is the
identity and `OBJECT` is the parent's current world matrix. For the vertex and bone modes
`derived` is the frame read from the parent's evaluated geometry or pose, absent when an
index is out of range or the bone is missing, in which case the identity is used. -/
def resolve_binding (mode : BindingMode) (parent_world : Mat4) (derived : Option Mat4) :
    Mat4 :=
  match mode with
  | BindingMode.NONE => Mat4.identity
  | BindingMode.OBJECT => parent_world
  | BindingMode.VERTEX => derived.getD Mat4.identity
  | BindingMode.VERTEX_TRIPLE => derived.getD Mat4.identity
  | BindingMode.BONE => derived.getD Mat4.identity

/-- Modelled from the spec: what the hierarchy resolver reads of a node, its channels, the
binding mode, the cached `parent_to_world_correction` (the field `parentinv`) and the
`constraint_correction` (the field `constinv`). -/
structure HierarchyNode where
  channels : TransformChannels
  binding : BindingMode
  parent_to_world_correction : Mat4
  constraint_correction : Mat4
deriving DecidableEq

/-- Modelled from the spec: the final matrix
`object_to_world = parent_world_now · parent_binding_correction ·
parent_to_world_correction · constraint_correction · local_matrix`.
`parent_world_now` is the world matrix of the already evaluated parent; a node without a
parent composes with the identity. -/
def evaluate_world_transform (parent_world_now : Option Mat4) (derived : Option Mat4)
    (n : HierarchyNode) : Mat4 :=
  ((((parent_world_now.getD Mat4.identity).mul
      (resolve_binding n.binding (parent_world_now.getD Mat4.identity) derived)).mul
      n.parent_to_world_correction).mul
      n.constraint_correction).mul
    (compose_local_matrix n.channels)

/-- Modelled from the spec: on (re)parenting in whole-object mode the correction
`inverse(parent_world_at_bind_time) · node_world_at_bind_time` is computed once and
cached. A parent whose world matrix is singular cannot be bound. -/
def bind_parent (n : HierarchyNode) (parent_world_at_bind node_world_at_bind : Mat4) :
    Option HierarchyNode :=
  (Mat4.inverse parent_world_at_bind).map fun inv =>
    { n with
      binding := BindingMode.OBJECT
      parent_to_world_correction := inv.mul node_world_at_bind }

/-- An unparented node with the given local translation, identity rotation and scale, and
no delta. -/
def node_at (t : Vec3) : HierarchyNode where
  channels :=
    { loc := t, dloc := { x := 0, y := 0, z := 0 }, scale := { x := 1, y := 1, z := 1 },
      dscale := { x := 1, y := 1, z := 1 }, rotation := Mat4.identity }
  binding := BindingMode.NONE
  parent_to_world_correction := Mat4.identity
  constraint_correction := Mat4.identity

/-- The node `N` of the reparenting scenario. -/
def scenario_N : HierarchyNode := node_at { x := 1, y := 0, z := 0 }

/-- World matrix of the parent `P` of the scenario when it sits at height `y`. -/
def scenario_P_world (y : ℚ) : Mat4 :=
  evaluate_world_transform none none (node_at { x := 0, y := y, z := 0 })

/-- World matrix of `N` before it has a parent. -/
def scenario_N_world_unparented : Mat4 := evaluate_world_transform none none scenario_N

/-- The node `N` after it is bound under `P` while `P` is at `(0, 5, 0)`. -/
def scenario_N_bound : Option HierarchyNode :=
  bind_parent scenario_N (scenario_P_world 5) scenario_N_world_unparented

/-- World translation of the bound `N` when `P` sits at height `y`. -/
def scenario_N_world_translation (y : ℚ) : Option Vec3 :=
  scenario_N_bound.map fun n =>
    (evaluate_world_transform (some (scenario_P_world y)) none n).translation_column

/-- What the parent contributes to the final matrix: `parent_world_now ·
parent_binding_correction`, the two leading factors of `evaluate_world_transform`. -/
def parent_result (parent_world_now : Mat4) (mode : BindingMode) (derived : Option Mat4) :
    Mat4 :=
  parent_world_now.mul (resolve_binding mode parent_world_now derived)

/-- Binding in whole-object mode with the cached correction as the header documents the
field `parentinv`: "Inverse result of parent, so that object doesn't 'stick' to parent".
The correction is the inverse of what the parent contributes at bind time; a parent whose
result is singular cannot be bound. -/
def bind_parentinv (n : HierarchyNode) (parent_world_at_bind : Mat4) :
    Option HierarchyNode :=
  (Mat4.inverse (parent_result parent_world_at_bind BindingMode.OBJECT none)).map fun inv =>
    { n with
      binding := BindingMode.OBJECT
      parent_to_world_correction := inv }

/-- The members of `struct Object`, in the order the header declares them (a declaration
with several declarators contributes them from left to right). -/
def Object_members : List String :=
  ["id", "adt", "drawdata", "sculpt", "type", "partype", "par1", "par2", "par3",
   "parsubstr", "parent", "track", "proxy", "proxy_group", "proxy_from", "ipo", "action",
   "poselib", "pose", "data", "gpd", "avs", "mpath", "_pad0", "constraintChannels",
   "effect", "defbase", "modifiers", "greasepencil_modifiers", "fmaps", "shader_fx",
   "mode", "restore_mode", "mat", "matbits", "totcol", "actcol", "loc", "dloc", "scale",
   "dsize", "dscale", "rot", "drot", "quat", "dquat", "rotAxis", "drotAxis", "rotAngle",
   "drotAngle", "object_to_world", "world_to_object", "parentinv", "constinv", "lay",
   "flag", "colbits", "transflag", "protectflag", "trackflag", "upflag", "nlaflag",
   "_pad1", "duplicator_visibility_flag", "base_flag", "base_local_view_bits", "col_group",
   "col_mask", "rotmode", "boundtype", "collision_boundtype", "dtx", "dt",
   "empty_drawtype", "empty_drawsize", "instance_faces_scale", "index", "actdef",
   "actfmap", "_pad2", "color", "softflag", "visibility_flag", "shapenr", "shapeflag",
   "_pad3", "constraints", "nlastrips", "hooks", "particlesystem", "pd", "soft",
   "instance_collection", "fluidsimSettings", "pc_ids", "rigidbody_object",
   "rigidbody_constraint", "ima_ofs", "iuser", "empty_image_visibility_flag",
   "empty_image_depth", "empty_image_flag", "modifier_flag", "_pad8", "preview", "lineart",
   "lightgroup", "lightprobe_cache", "_pad9", "runtime", "lodlevels", "currentlod",
   "lodfactor", "_pad4", "bsoft", "scaflag", "scavisflag", "_pad53", "mass", "damping",
   "inertia", "formfactor", "rdamping", "margin", "max_vel", "min_vel", "max_angvel",
   "min_angvel", "obstacleRad", "step_height", "jump_speed", "fall_speed", "max_slope",
   "max_jumps", "body_type", "state", "init_state", "custom_object", "prop", "sensors",
   "controllers", "actuators", "components", "activityCulling", "sf", "gameflag",
   "gameflag2", "anisotropicFriction", "friction", "rolling_friction", "fh", "reflect",
   "fhdist", "xyfrict", "dynamode", "_pad51", "ccd_motion_threshold",
   "ccd_swept_sphere_radius", "_pad54"]

/-- The member that holds the runtime evaluation data. -/
def Object_runtime_member : String := "runtime"

/-- The members declared after the member `m`. -/
def members_after (m : String) (ms : List String) : List String :=
  (ms.dropWhile (fun x => x != m)).drop 1

/-- A member is kept last when no member is declared after it. -/
def kept_last (m : String) (ms : List String) : Bool :=
  ms.getLast? == some m

/-! # Theorems -/

/-! ## Auxiliary facts -/

theorem allBelowPow2_sound (P : Nat → Bool) :
    ∀ k lo, allBelowPow2 P k lo = true → ∀ f, lo ≤ f → f < lo + 2 ^ k → P f = true := by
  intro k
  induction k with
  | zero =>
    intro lo h f h1 h2
    have hf : f = lo := by simp at h2; omega
    subst hf
    exact h
  | succ k ih =>
    intro lo h f h1 h2
    simp only [allBelowPow2, Bool.and_eq_true] at h
    by_cases hf : f < lo + 2 ^ k
    · exact ih lo h.1 f h1 hf
    · refine ih (lo + 2 ^ k) h.2 f (by omega) ?_
      rw [pow_succ] at h2
      omega

theorem testBit_15_16 (k : Nat) : (Nat.testBit 15 k && Nat.testBit 16 k) = false := by
  have h15 : (15 : Nat) = 2 ^ 4 - 1 := by norm_num
  have h16 : (16 : Nat) = 2 ^ 4 := by norm_num
  rw [h15, h16, Nat.testBit_two_pow_sub_one, Nat.testBit_two_pow]
  by_cases h : k < 4
  · have h4 : ¬ 4 = k := by omega
    simp [h4]
  · simp [h]

theorem PARTYPE_eq : PARTYPE = Int.ofNat 15 := by decide

theorem partype_mode_set_slow (p : Int) :
    partype_mode (partype_set_slow p) = partype_mode p := by
  unfold partype_mode partype_set_slow
  rw [PARTYPE_eq]
  cases p with
  | ofNat n =>
    show Int.ofNat ((n ||| 16) &&& 15) = Int.ofNat (n &&& 15)
    congr 1
    apply Nat.eq_of_testBit_eq
    intro k
    have h := testBit_15_16 k
    simp only [Nat.testBit_and, Nat.testBit_or]
    cases h1 : Nat.testBit 15 k <;> cases h2 : Nat.testBit 16 k <;> simp_all
  | negSucc n =>
    show Int.ofNat (Nat.ldiff 15 (Nat.ldiff n 16)) = Int.ofNat (Nat.ldiff 15 n)
    congr 1
    apply Nat.eq_of_testBit_eq
    intro k
    have h := testBit_15_16 k
    simp only [Nat.testBit_ldiff]
    cases h1 : Nat.testBit 15 k <;> cases h2 : Nat.testBit 16 k <;> simp_all

theorem partype_mode_clear_slow (p : Int) :
    partype_mode (partype_clear_slow p) = partype_mode p := by
  unfold partype_mode partype_clear_slow
  rw [PARTYPE_eq]
  cases p with
  | ofNat n =>
    show Int.ofNat ((Nat.ldiff n 16) &&& 15) = Int.ofNat (n &&& 15)
    congr 1
    apply Nat.eq_of_testBit_eq
    intro k
    have h := testBit_15_16 k
    simp only [Nat.testBit_and, Nat.testBit_ldiff]
    cases h1 : Nat.testBit 15 k <;> cases h2 : Nat.testBit 16 k <;> simp_all
  | negSucc n =>
    show Int.ofNat (Nat.ldiff 15 (n ||| 16)) = Int.ofNat (Nat.ldiff 15 n)
    congr 1
    apply Nat.eq_of_testBit_eq
    intro k
    have h := testBit_15_16 k
    simp only [Nat.testBit_ldiff, Nat.testBit_or]
    cases h1 : Nat.testBit 15 k <;> cases h2 : Nat.testBit 16 k <;> simp_all

theorem obdata_id_type_cases (c : ID_Type_codes) (t id : Int)
    (h : obdata_id_type c t = some id) :
    (t = OB_MESH ∧ id = c.ID_ME) ∨ (t = OB_CURVES_LEGACY ∧ id = c.ID_CU_LEGACY) ∨
    (t = OB_SURF ∧ id = c.ID_CU_LEGACY) ∨ (t = OB_FONT ∧ id = c.ID_CU_LEGACY) ∨
    (t = OB_MBALL ∧ id = c.ID_MB) ∨ (t = OB_LAMP ∧ id = c.ID_LA) ∨
    (t = OB_SPEAKER ∧ id = c.ID_SPK) ∨ (t = OB_LIGHTPROBE ∧ id = c.ID_LP) ∨
    (t = OB_CAMERA ∧ id = c.ID_CA) ∨ (t = OB_LATTICE ∧ id = c.ID_LT) ∨
    (t = OB_GPENCIL_LEGACY ∧ id = c.ID_GD_LEGACY) ∨ (t = OB_ARMATURE ∧ id = c.ID_AR) ∨
    (t = OB_CURVES ∧ id = c.ID_CV) ∨ (t = OB_POINTCLOUD ∧ id = c.ID_PT) ∨
    (t = OB_VOLUME ∧ id = c.ID_VO) := by
  unfold obdata_id_type at h
  by_cases e1 : t = OB_MESH
  · rw [if_pos e1] at h; left; exact ⟨e1, (Option.some.inj h).symm⟩
  rw [if_neg e1] at h; right
  by_cases e2 : t = OB_CURVES_LEGACY ∨ t = OB_SURF ∨ t = OB_FONT
  · rw [if_pos e2] at h
    have hid := (Option.some.inj h).symm
    rcases e2 with e | e | e
    · left; exact ⟨e, hid⟩
    · right; left; exact ⟨e, hid⟩
    · right; right; left; exact ⟨e, hid⟩
  rw [if_neg e2] at h; right; right; right
  by_cases e3 : t = OB_MBALL
  · rw [if_pos e3] at h; left; exact ⟨e3, (Option.some.inj h).symm⟩
  rw [if_neg e3] at h; right
  by_cases e4 : t = OB_LAMP
  · rw [if_pos e4] at h; left; exact ⟨e4, (Option.some.inj h).symm⟩
  rw [if_neg e4] at h; right
  by_cases e5 : t = OB_SPEAKER
  · rw [if_pos e5] at h; left; exact ⟨e5, (Option.some.inj h).symm⟩
  rw [if_neg e5] at h; right
  by_cases e6 : t = OB_LIGHTPROBE
  · rw [if_pos e6] at h; left; exact ⟨e6, (Option.some.inj h).symm⟩
  rw [if_neg e6] at h; right
  by_cases e7 : t = OB_CAMERA
  · rw [if_pos e7] at h; left; exact ⟨e7, (Option.some.inj h).symm⟩
  rw [if_neg e7] at h; right
  by_cases e8 : t = OB_LATTICE
  · rw [if_pos e8] at h; left; exact ⟨e8, (Option.some.inj h).symm⟩
  rw [if_neg e8] at h; right
  by_cases e9 : t = OB_GPENCIL_LEGACY
  · rw [if_pos e9] at h; left; exact ⟨e9, (Option.some.inj h).symm⟩
  rw [if_neg e9] at h; right
  by_cases e10 : t = OB_ARMATURE
  · rw [if_pos e10] at h; left; exact ⟨e10, (Option.some.inj h).symm⟩
  rw [if_neg e10] at h; right
  by_cases e11 : t = OB_CURVES
  · rw [if_pos e11] at h; left; exact ⟨e11, (Option.some.inj h).symm⟩
  rw [if_neg e11] at h; right
  by_cases e12 : t = OB_POINTCLOUD
  · rw [if_pos e12] at h; left; exact ⟨e12, (Option.some.inj h).symm⟩
  rw [if_neg e12] at h; right
  by_cases e13 : t = OB_VOLUME
  · rw [if_pos e13] at h; exact ⟨e13, (Option.some.inj h).symm⟩
  rw [if_neg e13] at h; cases h

theorem data_editmode_iff (c : ID_Type_codes) (x : Int) :
    OB_DATA_SUPPORT_EDITMODE c x = true ↔
      (x = c.ID_ME ∨ x = c.ID_CU_LEGACY ∨ x = c.ID_MB ∨ x = c.ID_LT ∨ x = c.ID_AR ∨
        x = c.ID_CV) := by
  simp [OB_DATA_SUPPORT_EDITMODE, ELEM]

set_option maxRecDepth 100000 in
theorem protectflag_record_check : allBelowPow2 protectflag_record_ok 11 0 = true := by
  decide

theorem protectflag_record_ok_below (f : Nat) (hf : f < 2 ^ 11) :
    protectflag_record_ok f = true :=
  allBelowPow2_sound protectflag_record_ok 11 0 protectflag_record_check f
    (Nat.zero_le f) (by simpa using hf)

/-! ## The object kinds -/

/-- C1. `enum ObjectType` is closed over sixteen kinds: the tags are sixteen pairwise
distinct values, every tag lies in `[0, OB_TYPE_MAX)` and fits the 16-bit signed field
`Object.type`, and `OB_TYPE_MAX` is one more than the greatest tag. -/
theorem ObjectType_closed :
    ObjectType_tags.length = 16 ∧ ObjectType_tags.Nodup ∧
    (∀ t ∈ ObjectType_tags, 0 ≤ t ∧ t < OB_TYPE_MAX ∧ short_fits t = true) ∧
    (∃ g ∈ ObjectType_tags, (∀ t ∈ ObjectType_tags, t ≤ g) ∧ OB_TYPE_MAX = g + 1) ∧
    short_fits OB_TYPE_MAX = true := by
  refine ⟨by decide, by decide, by decide, ⟨OB_VOLUME, by decide, by decide, rfl⟩, by decide⟩

theorem ObjectType_closed_witness :
    0 ≤ OB_LATTICE ∧ OB_LATTICE < OB_TYPE_MAX ∧ short_fits OB_LATTICE = true :=
  ObjectType_closed.2.2.1 OB_LATTICE (by decide)

/-- C2. The binding mode is the low four bits of `Object.partype`: `PARTYPE` is 15, the
five binding modes are unchanged by the mask and pairwise distinct, `PARSLOW` has no bit
inside the mask, and setting or clearing `PARSLOW` never changes the binding mode of any
`partype` value. -/
theorem partype_binding_mode_bits :
    PARTYPE = 15 ∧ partype_modes.map partype_mode = partype_modes ∧ partype_modes.Nodup ∧
    partype_mode PARSLOW = 0 ∧
    ∀ p : Int, partype_mode (partype_set_slow p) = partype_mode p ∧
      partype_mode (partype_clear_slow p) = partype_mode p :=
  ⟨by decide, by decide, by decide, by decide,
    fun p => ⟨partype_mode_set_slow p, partype_mode_clear_slow p⟩⟩

/-- C3. `OB_TYPE_IS_GEOMETRY` holds exactly for mesh, surface, font, metaball, legacy
grease pencil, legacy curve, curves, point cloud and volume; so it holds for
`OB_CURVES_LEGACY` and fails for empty, camera, lamp, speaker, light probe, lattice and
armature. -/
theorem OB_TYPE_IS_GEOMETRY_iff :
    (∀ t : Int, OB_TYPE_IS_GEOMETRY t = true ↔
      (t = OB_MESH ∨ t = OB_SURF ∨ t = OB_FONT ∨ t = OB_MBALL ∨ t = OB_GPENCIL_LEGACY ∨
        t = OB_CURVES_LEGACY ∨ t = OB_CURVES ∨ t = OB_POINTCLOUD ∨ t = OB_VOLUME)) ∧
    ObjectType_tags.filter OB_TYPE_IS_GEOMETRY =
      [OB_MESH, OB_CURVES_LEGACY, OB_SURF, OB_FONT, OB_MBALL, OB_GPENCIL_LEGACY, OB_CURVES,
        OB_POINTCLOUD, OB_VOLUME] ∧
    OB_TYPE_IS_GEOMETRY OB_CURVES_LEGACY = true ∧
    OB_TYPE_IS_GEOMETRY OB_EMPTY = false ∧ OB_TYPE_IS_GEOMETRY OB_CAMERA = false ∧
    OB_TYPE_IS_GEOMETRY OB_LAMP = false ∧ OB_TYPE_IS_GEOMETRY OB_SPEAKER = false ∧
    OB_TYPE_IS_GEOMETRY OB_LIGHTPROBE = false ∧ OB_TYPE_IS_GEOMETRY OB_LATTICE = false ∧
    OB_TYPE_IS_GEOMETRY OB_ARMATURE = false := by
  refine ⟨fun t => ?_, by decide, by decide, by decide, by decide, by decide, by decide,
    by decide, by decide, by decide⟩
  simp [OB_TYPE_IS_GEOMETRY, ELEM]

/-- C4. `OB_DATA_SUPPORT_EDITMODE` matches `OB_TYPE_SUPPORT_EDITMODE`: whenever the ID
codes are pairwise distinct, an object type with a data ID type supports edit mode if and
only if its data ID type does. -/
theorem OB_DATA_SUPPORT_EDITMODE_matches (c : ID_Type_codes) (hc : c.all.Nodup)
    (t id : Int) (h : obdata_id_type c t = some id) :
    (OB_TYPE_SUPPORT_EDITMODE t = true ↔ OB_DATA_SUPPORT_EDITMODE c id = true) := by
  unfold ID_Type_codes.all at hc
  simp only [List.nodup_cons, List.mem_cons, List.not_mem_nil, or_false, not_or,
    List.nodup_nil, and_true] at hc
  obtain ⟨⟨h1, h2, h3, h4, h5, h6, h7, h8, h9, h10, h11, h12⟩,
    ⟨g2, g3, g4, g5, g6, g7, g8, g9, g10, g11, g12⟩,
    ⟨k3, k4, k5, k6, k7, k8, k9, k10, k11, k12⟩,
    ⟨l4, l5, l6, l7, l8, l9, l10, l11, l12⟩,
    ⟨m5, m6, m7, m8, m9, m10, m11, m12⟩,
    ⟨n6, n7, n8, n9, n10, n11, n12⟩,
    ⟨o7, o8, o9, o10, o11, o12⟩,
    ⟨p8, p9, p10, p11, p12⟩,
    ⟨q9, q10, q11, q12⟩,
    ⟨r10, r11, r12⟩,
    ⟨s11, s12⟩,
    t12⟩ := hc
  rw [data_editmode_iff]
  have hpos : ∀ u : Int, OB_TYPE_SUPPORT_EDITMODE u = true → ∀ P : Prop, P →
      (OB_TYPE_SUPPORT_EDITMODE u = true ↔ P) := fun u hu P hp => ⟨fun _ => hp, fun _ => hu⟩
  have hneg : ∀ u : Int, OB_TYPE_SUPPORT_EDITMODE u = false → ∀ P : Prop, ¬ P →
      (OB_TYPE_SUPPORT_EDITMODE u = true ↔ P) :=
    fun u hu P hp => ⟨fun hx => (by rw [hu] at hx; cases hx), fun hx => absurd hx hp⟩
  rcases obdata_id_type_cases c t id h with
    h | h | h | h | h | h | h | h | h | h | h | h | h | h | h
  all_goals
    obtain ⟨ht, hid⟩ := h
    subst ht
    subst hid
    first
    | exact hpos _ (by decide) _ (by simp)
    | (refine hneg _ (by decide) _ ?_
       rintro (e | e | e | e | e | e) <;>
         first | exact absurd e (by assumption) | exact absurd e.symm (by assumption))

theorem OB_DATA_SUPPORT_EDITMODE_matches_witness :
    blender_ID_codes.all.Nodup ∧
    obdata_id_type blender_ID_codes OB_LAMP = some blender_ID_codes.ID_LA ∧
    (OB_TYPE_SUPPORT_EDITMODE OB_LAMP = true ↔
      OB_DATA_SUPPORT_EDITMODE blender_ID_codes blender_ID_codes.ID_LA = true) :=
  ⟨by decide, by decide,
    OB_DATA_SUPPORT_EDITMODE_matches blender_ID_codes (by decide) OB_LAMP
      blender_ID_codes.ID_LA (by decide)⟩

/-- C5. `Object.protectflag` is a record of eleven booleans: the eleven lock constants are
the single bits 0..10, each of `OB_LOCK_LOC`, `OB_LOCK_ROT`, `OB_LOCK_SCALE` is the OR of
its three axis bits, the three are pairwise disjoint and hold neither `OB_LOCK_ROTW` nor
`OB_LOCK_ROT4D`; and for every `f < 2 ^ 11` decoding and re-encoding gives `f` back, and a
three-axis mask is fully set in `f` exactly when its X, Y and Z locks are all set. -/
theorem protectflag_record_equiv :
    OB_LOCK_bits = (List.range 11).map (fun i => 2 ^ i) ∧
    (OB_LOCK_LOC = OB_LOCK_LOCX ||| OB_LOCK_LOCY ||| OB_LOCK_LOCZ ∧ OB_LOCK_LOC = 7) ∧
    (OB_LOCK_ROT = OB_LOCK_ROTX ||| OB_LOCK_ROTY ||| OB_LOCK_ROTZ ∧ OB_LOCK_ROT = 56) ∧
    (OB_LOCK_SCALE = OB_LOCK_SCALEX ||| OB_LOCK_SCALEY ||| OB_LOCK_SCALEZ ∧
      OB_LOCK_SCALE = 448) ∧
    (OB_LOCK_LOC &&& OB_LOCK_ROT = 0 ∧ OB_LOCK_LOC &&& OB_LOCK_SCALE = 0 ∧
      OB_LOCK_ROT &&& OB_LOCK_SCALE = 0) ∧
    (OB_LOCK_LOC ||| OB_LOCK_ROT ||| OB_LOCK_SCALE) &&& (OB_LOCK_ROTW ||| OB_LOCK_ROT4D) = 0 ∧
    ∀ f : Nat, f < 2 ^ 11 →
      protectflag_encode (protectflag_decode f) = f ∧
      (f &&& OB_LOCK_LOC = OB_LOCK_LOC ↔
        ((protectflag_decode f).loc_x = true ∧ (protectflag_decode f).loc_y = true ∧
          (protectflag_decode f).loc_z = true)) ∧
      (f &&& OB_LOCK_ROT = OB_LOCK_ROT ↔
        ((protectflag_decode f).rot_x = true ∧ (protectflag_decode f).rot_y = true ∧
          (protectflag_decode f).rot_z = true)) ∧
      (f &&& OB_LOCK_SCALE = OB_LOCK_SCALE ↔
        ((protectflag_decode f).scale_x = true ∧ (protectflag_decode f).scale_y = true ∧
          (protectflag_decode f).scale_z = true)) := by
  refine ⟨by decide, ⟨rfl, by decide⟩, ⟨rfl, by decide⟩, ⟨rfl, by decide⟩,
    ⟨by decide, by decide, by decide⟩, by decide, ?_⟩
  intro f hf
  have h := protectflag_record_ok_below f hf
  simp only [protectflag_record_ok, Bool.and_eq_true, decide_eq_true_eq, beq_iff_eq] at h
  obtain ⟨⟨⟨hrt, hl⟩, hr⟩, hs⟩ := h
  refine ⟨hrt, ?_, ?_, ?_⟩
  · rw [← and_assoc, ← Bool.and_eq_true, ← Bool.and_eq_true, ← hl, decide_eq_true_eq]
  · rw [← and_assoc, ← Bool.and_eq_true, ← Bool.and_eq_true, ← hr, decide_eq_true_eq]
  · rw [← and_assoc, ← Bool.and_eq_true, ← Bool.and_eq_true, ← hs, decide_eq_true_eq]

theorem protectflag_record_equiv_witness :
    (1365 : Nat) < 2 ^ 11 ∧ protectflag_encode (protectflag_decode 1365) = 1365 :=
  ⟨by decide, (protectflag_record_equiv.2.2.2.2.2.2 1365 (by decide)).1⟩

/-- C6. The declared limits fit their fields: every bit `1 << i` with
`i < OB_MAX_COL_MASKS` fits the unsigned 16-bit `col_group` / `col_mask`, whose width is
`OB_MAX_COL_MASKS`; every bit `1 << i` with `i < OB_MAX_STATES`, and the all-states mask
`(1 << OB_MAX_STATES) - 1`, fit the unsigned 32-bit `state` / `init_state`. -/
theorem declared_limits_fit :
    OB_MAX_COL_MASKS = 16 ∧ OB_MAX_STATES = 30 ∧
    (∀ i, i < OB_MAX_COL_MASKS → mask_bit i < 2 ^ col_mask_bits) ∧
    OB_MAX_COL_MASKS = col_mask_bits ∧
    (∀ i, i < OB_MAX_STATES → mask_bit i < 2 ^ state_bits) ∧
    all_states_mask < 2 ^ state_bits := by
  refine ⟨rfl, rfl, by decide, rfl, by decide, by decide⟩

theorem declared_limits_fit_witness :
    mask_bit 15 < 2 ^ col_mask_bits ∧ mask_bit 29 < 2 ^ state_bits :=
  ⟨declared_limits_fit.2.2.1 15 (by decide), declared_limits_fit.2.2.2.2.1 29 (by decide)⟩

/-! ## Evaluated-state cache -/

theorem mask_superset_trans (c m1 m2 : Nat) (h1 : mask_superset c m1 = true)
    (h2 : m2 &&& m1 = m2) : mask_superset c m2 = true := by
  simp only [mask_superset, beq_iff_eq] at h1 ⊢
  calc m2 &&& c = (m2 &&& m1) &&& c := by rw [h2]
    _ = m2 &&& (m1 &&& c) := Nat.land_assoc m2 m1 c
    _ = m2 &&& m1 := by rw [h1]
    _ = m2 := h2

theorem mask_superset_refl (m : Nat) : mask_superset m m = true := by
  simp [mask_superset]

theorem evaluate_hit (generate : Nat → Nat → Option Nat) (n : EvalNode) (m d : Nat)
    (hd : n.runtime.data_eval = some d)
    (hm : mask_superset n.runtime.last_data_mask m = true)
    (hr : n.eval_revision = n.revision) :
    evaluate generate n m =
      { node := n, result := EvalResult.payload d, released := [], rebuilt := false } := by
  unfold evaluate
  rw [hd]
  simp [hm, hr]

theorem rebuild_payload_state (generate : Nat → Nat → Option Nat) (n : EvalNode)
    (m d : Nat) (h : (rebuild generate n m).result = EvalResult.payload d) :
    (rebuild generate n m).node.runtime.data_eval = some d ∧
    (rebuild generate n m).node.runtime.last_data_mask = m ∧
    (rebuild generate n m).node.eval_revision = (rebuild generate n m).node.revision := by
  unfold rebuild at h ⊢
  cases hg : generate n.runtime.data_orig m with
  | none => rw [hg] at h; cases h
  | some e =>
    rw [hg] at h
    simp only [EvalResult.payload.injEq] at h
    subst h
    exact ⟨rfl, rfl, rfl⟩

theorem evaluate_payload_state (generate : Nat → Nat → Option Nat) (n : EvalNode)
    (m d : Nat) (h : (evaluate generate n m).result = EvalResult.payload d) :
    (evaluate generate n m).node.runtime.data_eval = some d ∧
    mask_superset (evaluate generate n m).node.runtime.last_data_mask m = true ∧
    (evaluate generate n m).node.eval_revision = (evaluate generate n m).node.revision := by
  have hreb : (rebuild generate n m).result = EvalResult.payload d →
      (rebuild generate n m).node.runtime.data_eval = some d ∧
      mask_superset (rebuild generate n m).node.runtime.last_data_mask m = true ∧
      (rebuild generate n m).node.eval_revision = (rebuild generate n m).node.revision := by
    intro hr
    obtain ⟨h1, h2, h3⟩ := rebuild_payload_state generate n m d hr
    exact ⟨h1, by rw [h2]; exact mask_superset_refl m, h3⟩
  unfold evaluate at h ⊢
  cases hd : n.runtime.data_eval with
  | none =>
    rw [hd] at h
    exact hreb h
  | some e =>
    rw [hd] at h
    by_cases hc :
        (mask_superset n.runtime.last_data_mask m && n.eval_revision == n.revision) = true
    · simp only [hc, if_true] at h ⊢
      simp only [EvalResult.payload.injEq] at h
      subst h
      simp only [Bool.and_eq_true, beq_iff_eq] at hc
      exact ⟨hd, hc.1, hc.2⟩
    · simp only [hc] at h ⊢
      exact hreb h

/-- C7. Memoization of `evaluate`: when a call with mask `m1` returned a payload and the
authored data is left alone, a second call with a mask `m2` that is a subset of (or equal
to) `m1` returns the payload of the same identity without rebuilding or releasing
anything, whatever the generation collaborator would do, and leaves the node, its
recorded last data mask included, unchanged. -/
theorem evaluate_memoized (generate generate2 : Nat → Nat → Option Nat) (n : EvalNode)
    (m1 m2 d : Nat) (hsub : m2 &&& m1 = m2)
    (h1 : (evaluate generate n m1).result = EvalResult.payload d) :
    evaluate generate2 (evaluate generate n m1).node m2 =
        { node := (evaluate generate n m1).node, result := EvalResult.payload d,
          released := [], rebuilt := false } ∧
    (evaluate generate2 (evaluate generate n m1).node m2).node.runtime.data_eval =
        (evaluate generate n m1).node.runtime.data_eval ∧
    (evaluate generate2 (evaluate generate n m1).node m2).node.runtime.last_data_mask =
        (evaluate generate n m1).node.runtime.last_data_mask := by
  obtain ⟨hd, hm, hr⟩ := evaluate_payload_state generate n m1 d h1
  have hhit := evaluate_hit generate2 (evaluate generate n m1).node m2 d hd
    (mask_superset_trans _ m1 m2 hm hsub) hr
  rw [hhit]
  exact ⟨rfl, rfl, rfl⟩

theorem evaluate_memoized_witness :
    (2 : Nat) &&& 3 = 2 ∧
    (evaluate (fun o m => some (o + m + 1)) (EvalNode.fresh 100) 3).result =
      EvalResult.payload 104 ∧
    (evaluate (fun _ _ => none)
        (evaluate (fun o m => some (o + m + 1)) (EvalNode.fresh 100) 3).node 2).result =
      EvalResult.payload 104 :=
  ⟨by decide, by decide,
    by rw [(evaluate_memoized (fun o m => some (o + m + 1)) (fun _ _ => none)
      (EvalNode.fresh 100) 3 2 104 (by decide) (by decide)).1]⟩

theorem rebuild_owner_ok (generate : Nat → Nat → Option Nat) (n : EvalNode) (m : Nat)
    (h : owner_ok n = true) : owner_ok (rebuild generate n m).node = true := by
  unfold rebuild
  cases hg : generate n.runtime.data_orig m with
  | none => exact h
  | some e =>
    by_cases he : e = n.runtime.data_orig <;> simp [owner_ok, he]

theorem evaluate_owner_ok (generate : Nat → Nat → Option Nat) (n : EvalNode) (m : Nat)
    (h : owner_ok n = true) : owner_ok (evaluate generate n m).node = true := by
  unfold evaluate
  cases hd : n.runtime.data_eval with
  | none => exact rebuild_owner_ok generate n m h
  | some e =>
    by_cases hc :
        (mask_superset n.runtime.last_data_mask m && n.eval_revision == n.revision) = true
    · simp only [hc, if_true]; exact h
    · simp only [hc]; exact rebuild_owner_ok generate n m h

theorem rebuild_released (generate : Nat → Nat → Option Nat) (n : EvalNode) (m x : Nat)
    (hx : x ∈ (rebuild generate n m).released) :
    n.runtime.is_data_eval_owned = true ∧ n.runtime.data_eval = some x := by
  unfold rebuild at hx
  cases hg : generate n.runtime.data_orig m with
  | none => rw [hg] at hx; cases hx
  | some e =>
    rw [hg] at hx
    by_cases ho : n.runtime.is_data_eval_owned = true
    · simp only [ho, if_true] at hx
      refine ⟨ho, ?_⟩
      cases hd : n.runtime.data_eval with
      | none => rw [hd] at hx; cases hx
      | some y =>
        rw [hd] at hx
        simp only [Option.toList, List.mem_singleton] at hx
        rw [hx]
    · simp only [ho] at hx
      cases hx

theorem evaluate_released (generate : Nat → Nat → Option Nat) (n : EvalNode) (m x : Nat)
    (hx : x ∈ (evaluate generate n m).released) :
    n.runtime.is_data_eval_owned = true ∧ n.runtime.data_eval = some x := by
  unfold evaluate at hx
  cases hd : n.runtime.data_eval with
  | none =>
    rw [hd] at hx
    have h := rebuild_released generate n m x hx
    rw [hd] at h
    exact h
  | some e =>
    rw [hd] at hx
    by_cases hc :
        (mask_superset n.runtime.last_data_mask m && n.eval_revision == n.revision) = true
    · simp only [hc, if_true] at hx
      cases hx
    · simp only [hc] at hx
      have h := rebuild_released generate n m x hx
      rw [hd] at h
      exact h

theorem evaluate_data_orig (generate : Nat → Nat → Option Nat) (n : EvalNode) (m : Nat) :
    (evaluate generate n m).node.runtime.data_orig = n.runtime.data_orig := by
  have hreb : (rebuild generate n m).node.runtime.data_orig = n.runtime.data_orig := by
    unfold rebuild
    cases hg : generate n.runtime.data_orig m <;> rfl
  unfold evaluate
  cases hd : n.runtime.data_eval with
  | none => exact hreb
  | some e =>
    by_cases hc :
        (mask_superset n.runtime.last_data_mask m && n.eval_revision == n.revision) = true
    · simp only [hc, if_true]
    · simp only [hc]; exact hreb

theorem evaluate_orig_not_released (generate : Nat → Nat → Option Nat) (n : EvalNode)
    (m : Nat) (h : owner_ok n = true) :
    n.runtime.data_orig ∉ (evaluate generate n m).released := by
  intro hx
  obtain ⟨ho, hd⟩ := evaluate_released generate n m _ hx
  simp [owner_ok, ho, hd] at h

theorem evaluate_rebuilt_owned (generate : Nat → Nat → Option Nat) (n : EvalNode) (m : Nat)
    (h : (evaluate generate n m).rebuilt = true) :
    ((evaluate generate n m).node.runtime.is_data_eval_owned = false ↔
      (evaluate generate n m).node.runtime.data_eval =
        some (evaluate generate n m).node.runtime.data_orig) := by
  have hreb : (rebuild generate n m).rebuilt = true →
      ((rebuild generate n m).node.runtime.is_data_eval_owned = false ↔
        (rebuild generate n m).node.runtime.data_eval =
          some (rebuild generate n m).node.runtime.data_orig) := by
    unfold rebuild
    cases hg : generate n.runtime.data_orig m with
    | none => intro hr; cases hr
    | some e => intro _; simp
  unfold evaluate at h ⊢
  cases hd : n.runtime.data_eval with
  | none =>
    rw [hd] at h
    exact hreb h
  | some e =>
    rw [hd] at h
    by_cases hc :
        (mask_superset n.runtime.last_data_mask m && n.eval_revision == n.revision) = true
    · simp only [hc, if_true] at h
      cases h
    · simp only [hc] at h ⊢
      exact hreb h

theorem run_cycles_invariant (generate : Nat → Nat → Option Nat) (ops : List CacheOp) :
    ∀ st : EvalNode × List Nat, owner_ok st.1 = true → st.1.runtime.data_orig ∉ st.2 →
      owner_ok (ops.foldl (CacheOp.apply generate) st).1 = true ∧
      (ops.foldl (CacheOp.apply generate) st).1.runtime.data_orig = st.1.runtime.data_orig ∧
      st.1.runtime.data_orig ∉ (ops.foldl (CacheOp.apply generate) st).2 := by
  induction ops with
  | nil => intro st h1 h2; exact ⟨h1, rfl, h2⟩
  | cons op ops ih =>
    intro st h1 h2
    rw [List.foldl_cons]
    cases op with
    | request m =>
      have hok := evaluate_owner_ok generate st.1 m h1
      have ho := evaluate_data_orig generate st.1 m
      have hnr := evaluate_orig_not_released generate st.1 m h1
      have hst : (CacheOp.apply generate st (CacheOp.request m)).1.runtime.data_orig ∉
          (CacheOp.apply generate st (CacheOp.request m)).2 := by
        show (evaluate generate st.1 m).node.runtime.data_orig ∉
          st.2 ++ (evaluate generate st.1 m).released
        rw [ho, List.mem_append]
        exact fun hx => hx.elim h2 hnr
      obtain ⟨a, b, c⟩ := ih (CacheOp.apply generate st (CacheOp.request m)) hok hst
      have ho2 : (CacheOp.apply generate st (CacheOp.request m)).1.runtime.data_orig =
          st.1.runtime.data_orig := ho
      rw [ho2] at b c
      exact ⟨a, b, c⟩
    | author_edit =>
      exact ih (CacheOp.apply generate st CacheOp.author_edit) h1 h2

/-- C8. Ownership on rebuild: after every rebuild `is_data_eval_owned` is false exactly
when the evaluated-data reference is the original-data reference, and true otherwise; a
call releases an instance only if it was the previous evaluated data and the node owned
it; and from a node that does not own the original (a fresh node is one), through any
number of evaluate and edit cycles, the authored original is never released. -/
theorem ownership_on_rebuild (generate : Nat → Nat → Option Nat) (n : EvalNode) (m : Nat) :
    ((evaluate generate n m).rebuilt = true →
      (((evaluate generate n m).node.runtime.is_data_eval_owned = false ↔
          (evaluate generate n m).node.runtime.data_eval =
            some (evaluate generate n m).node.runtime.data_orig) ∧
        ((evaluate generate n m).node.runtime.is_data_eval_owned = true ↔
          (evaluate generate n m).node.runtime.data_eval ≠
            some (evaluate generate n m).node.runtime.data_orig))) ∧
    (∀ x ∈ (evaluate generate n m).released,
      n.runtime.is_data_eval_owned = true ∧ n.runtime.data_eval = some x) ∧
    (∀ o : Nat, owner_ok (EvalNode.fresh o) = true) ∧
    (owner_ok n = true →
      ∀ ops : List CacheOp,
        owner_ok (run_cycles generate n ops).1 = true ∧
        n.runtime.data_orig ∉ (run_cycles generate n ops).2) := by
  refine ⟨fun h => ?_, fun x hx => evaluate_released generate n m x hx, fun o => rfl,
    fun h ops => ?_⟩
  · have h1 := evaluate_rebuilt_owned generate n m h
    refine ⟨h1, ?_⟩
    rw [Ne, ← h1]
    simp
  · obtain ⟨a, _, c⟩ := run_cycles_invariant generate ops (n, []) h (by simp)
    exact ⟨a, c⟩

theorem ownership_on_rebuild_witness :
    (evaluate (fun o _ => some o) (EvalNode.fresh 100) 3).rebuilt = true ∧
    ((evaluate (fun o _ => some o) (EvalNode.fresh 100) 3).node.runtime.is_data_eval_owned
        = false ↔
      (evaluate (fun o _ => some o) (EvalNode.fresh 100) 3).node.runtime.data_eval =
        some (evaluate (fun o _ => some o) (EvalNode.fresh 100) 3).node.runtime.data_orig) :=
  ⟨by decide, ((ownership_on_rebuild (fun o _ => some o) (EvalNode.fresh 100) 3).1
    (by decide)).1⟩

/-! ## Bounding volume cache -/

theorem Mat4.mul_inverse (A B : Mat4) (h : A.inverse = some B) :
    A.mul B = Mat4.identity := by
  unfold Mat4.inverse at h
  by_cases hd : A.det = 0
  · rw [if_pos hd] at h; cases h
  · rw [if_neg hd] at h
    simp only [Option.some.injEq] at h
    subst h
    have key : ∀ a b c e c1 c2 c3 c4 d : ℚ,
        a * (c1 / d) + b * (c2 / d) + c * (c3 / d) + e * (c4 / d) =
          (a * c1 + b * c2 + c * c3 + e * c4) / d := by
      intros; ring
    simp only [Mat4.mul, Mat4.transpose_div, Mat4.identity, Mat4.mk.injEq, key]
    refine ⟨?_, ?_, ?_, ?_, ?_, ?_, ?_, ?_, ?_, ?_, ?_, ?_, ?_, ?_, ?_, ?_⟩ <;>
      first
      | (rw [div_eq_one_iff_eq hd]; simp only [Mat4.det, Mat4.cofactor, det3]; try ring)
      | (rw [div_eq_zero_iff]; left; simp only [Mat4.cofactor, det3]; ring)

theorem scenario_P_world_eq (y : ℚ) :
    scenario_P_world y = Mat4.translation { x := 0, y := y, z := 0 } := by
  simp [scenario_P_world, evaluate_world_transform, resolve_binding, node_at,
    compose_local_matrix, Mat4.mul, Mat4.identity, Mat4.translation, Mat4.scaling]

theorem scenario_N_world_unparented_eq :
    scenario_N_world_unparented = Mat4.translation { x := 1, y := 0, z := 0 } := by
  simp [scenario_N_world_unparented, scenario_N, evaluate_world_transform, resolve_binding,
    node_at, compose_local_matrix, Mat4.mul, Mat4.identity, Mat4.translation, Mat4.scaling]

theorem inverse_translation (t : Vec3) :
    (Mat4.translation t).inverse =
      some (Mat4.translation { x := -t.x, y := -t.y, z := -t.z }) := by
  simp [Mat4.inverse, Mat4.det, Mat4.cofactor, det3, Mat4.translation, Mat4.identity,
    Mat4.transpose_div]

theorem scenario_N_bound_eq :
    scenario_N_bound =
      some { scenario_N with
        binding := BindingMode.OBJECT
        parent_to_world_correction := Mat4.translation { x := 1, y := -5, z := 0 } } := by
  unfold scenario_N_bound bind_parent
  rw [scenario_P_world_eq, scenario_N_world_unparented_eq, inverse_translation]
  simp [Mat4.mul, Mat4.translation, Mat4.identity]

/-- With the correction `inverse(parent_world_at_bind_time) · node_world_at_bind_time` of
`bind_parent`, which already holds the node's own world matrix, the final-matrix formula
moves the node on the bind evaluation. -/
theorem scenario_N_world_translation_eq (y : ℚ) :
    scenario_N_world_translation y = some { x := 2, y := y + y - 5, z := 0 } := by
  simp [scenario_N_world_translation, scenario_N_bound_eq, scenario_P_world_eq,
    evaluate_world_transform, resolve_binding, scenario_N, node_at, compose_local_matrix,
    Mat4.mul, Mat4.translation, Mat4.identity, Mat4.scaling, Mat4.translation_column]
  constructor <;> ring

theorem Mat4.identity_mul (A : Mat4) : Mat4.identity.mul A = A := by
  simp [Mat4.mul, Mat4.identity]

theorem Mat4.mul_identity (A : Mat4) : A.mul Mat4.identity = A := by
  simp [Mat4.mul, Mat4.identity]

/-- Binding with `parentinv` does not move the node on the bind evaluation: an unparented
node evaluated under the parent it was just bound to keeps its world matrix. -/
theorem bind_parentinv_no_jump (n m : HierarchyNode) (P : Mat4)
    (hb : n.binding = BindingMode.NONE) (hc : n.parent_to_world_correction = Mat4.identity)
    (h : bind_parentinv n P = some m) :
    evaluate_world_transform (some P) none m = evaluate_world_transform none none n := by
  unfold bind_parentinv at h
  cases hi : Mat4.inverse (parent_result P BindingMode.OBJECT none) with
  | none => rw [hi] at h; cases h
  | some inv =>
    rw [hi] at h
    simp only [Option.map_some', Option.some.injEq] at h
    subst h
    have hinv := Mat4.mul_inverse _ _ hi
    simp only [parent_result, resolve_binding] at hinv
    simp only [evaluate_world_transform, resolve_binding, Option.getD_some, Option.getD_none,
      hinv, hb, hc, Mat4.identity_mul]

set_option maxRecDepth 100000 in
theorem Object_members_length : Object_members.length = 159 := by decide

set_option maxRecDepth 100000 in
theorem Object_runtime_index : Object_members.indexOf Object_runtime_member = 109 := by
  decide

/-- C11, on the code: the member `runtime` of `struct Object` carries the comment "keep
last" but is not kept last. It is the 110th of 159 members, and the 49 game-engine
members `lodlevels` .. `_pad54` are declared after it. -/
theorem Object_runtime_not_kept_last :
    Object_members.length = 159 ∧
    Object_members.indexOf Object_runtime_member = 109 ∧
    kept_last Object_runtime_member Object_members = false ∧
    Object_members.getLast? = some "_pad54" ∧
    (members_after Object_runtime_member Object_members).length = 49 ∧
    members_after Object_runtime_member Object_members =
      ["lodlevels", "currentlod", "lodfactor", "_pad4", "bsoft", "scaflag", "scavisflag",
       "_pad53", "mass", "damping", "inertia", "formfactor", "rdamping", "margin",
       "max_vel", "min_vel", "max_angvel", "min_angvel", "obstacleRad", "step_height",
       "jump_speed", "fall_speed", "max_slope", "max_jumps", "body_type", "state",
       "init_state", "custom_object", "prop", "sensors", "controllers", "actuators",
       "components", "activityCulling", "sf", "gameflag", "gameflag2",
       "anisotropicFriction", "friction", "rolling_friction", "fh", "reflect", "fhdist",
       "xyfrict", "dynamode", "_pad51", "ccd_motion_threshold", "ccd_swept_sphere_radius",
       "_pad54"] := by
  refine ⟨Object_members_length, Object_runtime_index, by decide, by decide, by decide,
    by decide⟩

end DNAObject
